import Mathlib

/-!
Verification of the position-lifecycle and
risk-control code (src/src/risk_manager/risk_control.py,
src/src/main.py, src/src/data_collectors/broker_api.py).

Prices and monetary amounts are modelled as rationals (Python floats),
share quantities as rationals where they mix with prices, and the
position ledger (the Python dict `self.positions`) as an association
list with dict-assignment semantics.
-/

namespace RedArrow

/-- Python `int(x)`: truncation toward zero. -/
def pyInt (q : ℚ) : ℤ := if 0 ≤ q then ⌊q⌋ else ⌈q⌉

/-- Configuration fields read by `RiskManager.__init__` from the config
dictionary (risk_control.py lines 91-112). -/
structure RiskConfig where
  stop_loss_percent : ℚ
  take_profit_percent : ℚ
  trailing_stop : Bool
  trailing_stop_percent : ℚ
  max_position_size : ℚ
  max_positions : ℕ
  overnight_hold : Bool
  overnight_min_profit : ℚ
  daily_loss_limit : ℚ
deriving DecidableEq, Repr

/-- The two branches of `check_stop_loss` that can set `should_stop`
(risk_control.py lines 155 and 164): the percent loss limit or a
moving-average breakdown. -/
inductive StopLossReason where
  | loss_limit_exceeded
  | ma_breakdown
deriving DecidableEq, Repr

/-- Return dictionary of `RiskManager.check_stop_loss`. -/
structure StopLossResult where
  should_stop : Bool
  reason : Option StopLossReason
  loss_percent : ℚ
deriving DecidableEq, Repr

/-- Embedding of `RiskManager.check_stop_loss` (risk_control.py lines 114-175). -/
def check_stop_loss (cfg : RiskConfig) (entry_price current_price : ℚ)
    (ma_value : Option ℚ) : StopLossResult :=
  let loss_percent := (current_price - entry_price) / entry_price * 100
  if loss_percent ≤ -cfg.stop_loss_percent then
    ⟨true, some StopLossReason.loss_limit_exceeded, loss_percent⟩
  else
    match ma_value with
    | some m =>
        if current_price < m then
          ⟨true, some StopLossReason.ma_breakdown, loss_percent⟩
        else ⟨false, none, loss_percent⟩
    | none => ⟨false, none, loss_percent⟩

/-- Return dictionary of `RiskManager.check_take_profit`. -/
structure TakeProfitResult where
  should_profit : Bool
  profit_percent : ℚ
deriving DecidableEq, Repr

/-- Embedding of `RiskManager.check_take_profit` (risk_control.py lines 177-203). -/
def check_take_profit (cfg : RiskConfig) (entry_price current_price : ℚ) :
    TakeProfitResult :=
  let profit_percent := (current_price - entry_price) / entry_price * 100
  if cfg.take_profit_percent ≤ profit_percent then ⟨true, profit_percent⟩
  else ⟨false, profit_percent⟩

/-- Return dictionary of `RiskManager.calculate_trailing_stop`; the price
and drop fields are absent (`None` / not set) when the feature is off. -/
structure TrailingStopResult where
  should_stop : Bool
  trailing_stop_price : Option ℚ
  drop_from_high : Option ℚ
deriving DecidableEq, Repr

/-- Embedding of `RiskManager.calculate_trailing_stop` (risk_control.py lines 205-268). -/
def calculate_trailing_stop (cfg : RiskConfig)
    (entry_price highest_price current_price : ℚ) : TrailingStopResult :=
  if ¬cfg.trailing_stop then ⟨false, none, none⟩
  else
    let drop_from_high := (current_price - highest_price) / highest_price * 100
    let trailing_stop_price :=
      highest_price * (1 - cfg.trailing_stop_percent / 100)
    ⟨decide (drop_from_high ≤ -cfg.trailing_stop_percent ∧
        entry_price < current_price),
      some trailing_stop_price, some drop_from_high⟩

/-- Return dictionary of `RiskManager.calculate_position_size`. -/
structure PositionSizeResult where
  quantity : ℤ
  amount : ℚ
  risk_amount : ℚ
deriving DecidableEq, Repr

/-- Embedding of `RiskManager.calculate_position_size` (risk_control.py lines 270-342);
Python `int(...)` is truncation toward zero (`pyInt`). -/
def calculate_position_size (cfg : RiskConfig)
    (stock_price account_balance risk_percent : ℚ) : PositionSizeResult :=
  if account_balance ≤ 0 ∨ stock_price ≤ 0 then ⟨0, 0, 0⟩
  else
    let risk_amount := account_balance * (risk_percent / 100)
    let max_quantity :=
      pyInt (risk_amount / (stock_price * (cfg.stop_loss_percent / 100)))
    let max_position_quantity := pyInt (cfg.max_position_size / stock_price)
    let quantity := min max_quantity max_position_quantity
    ⟨quantity, (quantity : ℚ) * stock_price, risk_amount⟩

/-- The branch of `check_overnight_eligibility` that decided the result
(risk_control.py lines 344-389). -/
inductive OvernightReason where
  | disabled
  | below_min_profit
  | volatile_market
  | hold_ok
deriving DecidableEq, Repr

/-- Return dictionary of `RiskManager.check_overnight_eligibility`. -/
structure OvernightResult where
  should_hold : Bool
  reason : OvernightReason
deriving DecidableEq, Repr

/-- Embedding of `RiskManager.check_overnight_eligibility` (risk_control.py lines
344-389). -/
def check_overnight_eligibility (cfg : RiskConfig)
    (entry_price current_price : ℚ) (market_status : String) :
    OvernightResult :=
  if ¬cfg.overnight_hold then ⟨false, OvernightReason.disabled⟩
  else
    let profit_percent := (current_price - entry_price) / entry_price * 100
    if profit_percent < cfg.overnight_min_profit then
      ⟨false, OvernightReason.below_min_profit⟩
    else if market_status = "volatile" then
      ⟨false, OvernightReason.volatile_market⟩
    else ⟨true, OvernightReason.hold_ok⟩

/-- Return dictionary of `RiskManager.check_daily_loss_limit`. -/
structure DailyLossResult where
  limit_reached : Bool
  daily_loss_percent : ℚ
deriving DecidableEq, Repr

/-- Embedding of `RiskManager.check_daily_loss_limit` (risk_control.py lines 391-424). -/
def check_daily_loss_limit (cfg : RiskConfig)
    (daily_pnl account_balance : ℚ) : DailyLossResult :=
  if account_balance ≤ 0 then ⟨false, 0⟩
  else
    let daily_loss_percent := daily_pnl / account_balance * 100
    ⟨decide (daily_loss_percent ≤ cfg.daily_loss_limit), daily_loss_percent⟩

/-- Embedding of `RiskManager.check_max_positions` (risk_control.py lines 426-439). -/
def check_max_positions (cfg : RiskConfig) (current_positions : ℕ) : Bool :=
  decide (current_positions < cfg.max_positions)

/-- The branch of `should_close_position` that produced the close signal
(risk_control.py lines 505-549). -/
inductive CloseReason where
  | stop_loss (r : StopLossReason)
  | take_profit
  | trailing_stop_fired
  | end_of_day (r : OvernightReason)
deriving DecidableEq, Repr

/-- Return dictionary of `RiskManager.should_close_position`. -/
structure CloseResult where
  should_close : Bool
  reason : Option CloseReason
  pnl_percent : ℚ
deriving DecidableEq, Repr

/-- Times of day are minutes since midnight; `time(15, 20)` in
`should_close_position` (risk_control.py line 538). -/
def market_close_time : ℕ := 15 * 60 + 20

/-- Embedding of `RiskManager.should_close_position` (risk_control.py lines 484-556):
stop-loss, then take-profit, then trailing stop, then the 15:20
end-of-day check (only when a current time was supplied). -/
def should_close_position (cfg : RiskConfig)
    (entry_price current_price highest_price : ℚ)
    (ma_value : Option ℚ) (current_time : Option ℕ) : CloseResult :=
  let stop_loss_result := check_stop_loss cfg entry_price current_price ma_value
  if stop_loss_result.should_stop then
    ⟨true, stop_loss_result.reason.map CloseReason.stop_loss,
      stop_loss_result.loss_percent⟩
  else
    let take_profit_result := check_take_profit cfg entry_price current_price
    if take_profit_result.should_profit then
      ⟨true, some CloseReason.take_profit, take_profit_result.profit_percent⟩
    else
      let trailing_result :=
        calculate_trailing_stop cfg entry_price highest_price current_price
      if trailing_result.should_stop then
        ⟨true, some CloseReason.trailing_stop_fired,
          (current_price - entry_price) / entry_price * 100⟩
      else
        match current_time with
        | some t =>
            if market_close_time ≤ t then
              let overnight_result :=
                check_overnight_eligibility cfg entry_price current_price
                  "normal"
              if ¬overnight_result.should_hold then
                ⟨true, some (CloseReason.end_of_day overnight_result.reason),
                  (current_price - entry_price) / entry_price * 100⟩
              else ⟨false, none,
                (current_price - entry_price) / entry_price * 100⟩
            else ⟨false, none,
              (current_price - entry_price) / entry_price * 100⟩
        | none => ⟨false, none,
            (current_price - entry_price) / entry_price * 100⟩

/-! ### The position ledger (`RedArrowSystem.positions`, main.py) -/

/-- One entry of the `self.positions` dictionary (main.py lines
159-166 and 355-362); `entry_time` is not modelled. -/
structure Position where
  name : String
  entry_price : ℚ
  quantity : ℚ
  highest_price : ℚ
  order_no : String
deriving DecidableEq, Repr

/-- The `self.positions` dict: an association list from stock code to
position, with dict-assignment semantics (`ledger_insert`). -/
def Ledger := List (String × Position)
deriving DecidableEq

/-- Python dict assignment `positions[code] = p`: replace the entry in
place if the key exists, otherwise append. -/
def ledger_insert : Ledger → String → Position → Ledger
  | [], c, p => [(c, p)]
  | e :: t, c, p => if e.1 = c then (c, p) :: t else e :: ledger_insert t c p

/-- Python `del positions[code]` (and more: removes every entry with the
key; on a key-nodup ledger this is exactly `del`). -/
def ledger_erase (L : Ledger) (c : String) : Ledger :=
  L.filter (fun e => decide (e.1 ≠ c))

/-- Python `positions.get(code)`. -/
def ledger_lookup (L : Ledger) (c : String) : Option Position :=
  (L.find? (fun e => decide (e.1 = c))).map Prod.snd

/-- Embedding of `len(positions)`. -/
def ledger_size (L : Ledger) : ℕ := L.length

/-- One holding as reported by `KoreaInvestmentAPI.get_positions`
(broker_api.py lines 1023-1032); only the fields main.py reads. -/
structure RemotePosition where
  code : String
  name : String
  avg_price : ℚ
  quantity : ℚ
  current_price : ℚ
deriving DecidableEq, Repr

/-- How `sync_positions_with_account` turns one remote holding into a
ledger entry (main.py lines 159-166): highest price starts at the
current remote price and the order reference is `"SYNCED"`. -/
def adopt_remote (r : RemotePosition) : Position :=
  { name := r.name
    entry_price := r.avg_price
    quantity := r.quantity
    highest_price := r.current_price
    order_no := "SYNCED" }

/-- Ledger effect of `RedArrowSystem.sync_positions_with_account`
(main.py lines 146-174): when the remote list is empty the function
returns early and the ledger is untouched; otherwise the ledger is
cleared and rebuilt from the remote holdings. -/
def sync_positions_with_account (L : Ledger)
    (api_positions : List RemotePosition) : Ledger :=
  if api_positions.isEmpty then L
  else api_positions.foldl
    (fun acc r => ledger_insert acc r.code (adopt_remote r)) []

/-- Balance effect of the remote balance fetch in
`sync_positions_with_account` (main.py lines 135-143) and of the hourly
refresh in `run` (main.py lines 608-615): `none` models a failed fetch
(`balance_info` falsy or missing the key); a reported amount replaces
the local balance only when it is strictly positive. -/
def update_account_balance (prior : ℚ) (available_amount : Option ℚ) : ℚ :=
  match available_amount with
  | some a => if 0 < a then a else prior
  | none => prior

/-- A candidate from the stock selector as consumed by `execute_trade`
(main.py lines 277-325). -/
structure SelectedStock where
  code : String
  name : String
  price : ℚ
deriving DecidableEq, Repr

/-- Ledger effect of `RedArrowSystem.execute_trade` (main.py lines
277-386). `buy_accepted` is the success flag of the
submission response; `fill` is the outcome of the 20-second
confirmation poll over `get_positions` (`found_position`, or `none` on
timeout). A position is recorded only when the poll finds the fill, and
then with the remote-reported price and quantity. -/
def execute_trade_ledger (cfg : RiskConfig) (L : Ledger)
    (stock : SelectedStock) (account_balance : ℚ) (buy_accepted : Bool)
    (fill : Option RemotePosition) (order_no : String) : Ledger :=
  if ¬check_max_positions cfg (ledger_size L) then L
  else if account_balance ≤ 0 then L
  else if (calculate_position_size cfg stock.price account_balance 2).quantity ≤ 0 then L
  else if buy_accepted then
    match fill with
    | some f =>
        ledger_insert L stock.code
          { name := stock.name
            entry_price := f.avg_price
            quantity := f.quantity
            highest_price := f.current_price
            order_no := order_no }
    | none => L
  else L

/-- The highest-price update of `monitor_positions` for one position
(main.py lines 411-413). -/
def update_highest (pos : Position) (current_price : ℚ) : Position :=
  if pos.highest_price < current_price then
    { pos with highest_price := current_price }
  else pos

/-- What `monitor_positions` does to one held position (main.py lines
397-461): the resulting ledger entry (`none` = deleted) and the realized
P&L added to `daily_pnl`. `price_info` is the current-price fetch
(`none` = failed, position skipped); `sell_accepted` is the success
flag the broker returns for the sell submission. On a close signal the sell order is
submitted and, if the submission reports success, the position is
deleted at once — no fill-confirmation poll runs on the sell path. -/
def monitor_position_step (cfg : RiskConfig) (pos : Position)
    (price_info : Option ℚ) (sell_accepted : Bool) (now : ℕ) :
    Option Position × ℚ :=
  match price_info with
  | none => (some pos, 0)
  | some current_price =>
    let pos' := update_highest pos current_price
    let should_close :=
      should_close_position cfg pos'.entry_price current_price
        pos'.highest_price none (some now)
    if should_close.should_close then
      if sell_accepted then
        (none,
          pos'.quantity * current_price - pos'.quantity * pos'.entry_price)
      else (some pos', 0)
    else (some pos', 0)

/-- What `close_all_positions` does to one held position (main.py lines
493-539): a failed price fetch falls back to the entry price, the sell
order is submitted unconditionally, and the position is deleted exactly
when the submission reports success — again with no fill-confirmation
poll. -/
def close_all_position_step (pos : Position) (price_info : Option ℚ)
    (sell_accepted : Bool) : Option Position × ℚ :=
  let current_price :=
    match price_info with
    | none => pos.entry_price
    | some p => p
  if sell_accepted then
    (none, pos.quantity * current_price - pos.quantity * pos.entry_price)
  else (some pos, 0)

/-! ### Broker order bodies (`broker_api.py`) -/

/-- Python truthiness of an `Optional[float]`: `None` and `0.0` are
falsy. -/
def pyTruthy : Option ℚ → Bool
  | none => false
  | some p => decide (p ≠ 0)

/-- The JSON body fields of the cash-order request. -/
structure OrderCashBody where
  cano : String
  acnt_prdt_cd : String
  pdno : String
  ord_dvsn : String
  ord_qty : String
  ord_unpr : String
deriving DecidableEq, Repr

/-- Request body built by `KoreaInvestmentAPI.place_buy_order`
(broker_api.py lines 762-769); the source literally writes
`"01" if price else "01"` for the order division. -/
def place_buy_order_body (cano acnt_prdt_cd stock_code : String)
    (quantity : ℕ) (price : Option ℚ) : OrderCashBody :=
  { cano := cano
    acnt_prdt_cd := acnt_prdt_cd
    pdno := stock_code
    ord_dvsn := if pyTruthy price then "01" else "01"
    ord_qty := toString quantity
    ord_unpr :=
      if pyTruthy price then toString (pyInt (price.getD 0)) else "0" }

/-- Request body built by `KoreaInvestmentAPI.place_sell_order`
(broker_api.py lines 846-853); textually the same construction as the
buy body. -/
def place_sell_order_body (cano acnt_prdt_cd stock_code : String)
    (quantity : ℕ) (price : Option ℚ) : OrderCashBody :=
  { cano := cano
    acnt_prdt_cd := acnt_prdt_cd
    pdno := stock_code
    ord_dvsn := if pyTruthy price then "01" else "01"
    ord_qty := toString quantity
    ord_unpr :=
      if pyTruthy price then toString (pyInt (price.getD 0)) else "0" }

/-! ### Concrete fixtures for witnesses and counterexamples

`cfg0` is the configuration used in the main block of risk_control.py
(lines 562-572), which also equals every `config.get` default. -/

def cfg0 : RiskConfig :=
  { stop_loss_percent := 5/2
    take_profit_percent := 5
    trailing_stop := true
    trailing_stop_percent := 3/2
    max_position_size := 1000000
    max_positions := 5
    overnight_hold := false
    overnight_min_profit := 2
    daily_loss_limit := -5 }

/-- A held position: entry 100, quantity 10, highest price seen 110. -/
def posA : Position :=
  { name := "AlphaCorp"
    entry_price := 100
    quantity := 10
    highest_price := 110
    order_no := "SYNCED" }

/-- A one-position ledger holding `posA` under code `"A"`. -/
def demoLedger : Ledger := [("A", posA)]

/-- The state of `posA` after the monitoring step saw price 120. -/
def posAafter : Position := { posA with highest_price := 120 }

/-- A remote holding not present in `demoLedger`. -/
def remoteB : RemotePosition :=
  { code := "B", name := "BetaCorp", avg_price := 200, quantity := 5
    current_price := 210 }

/-- The remote view of the stock of `posA` after its price fell to 105,
below the locally recorded highest price of 110. -/
def remoteAlow : RemotePosition :=
  { code := "A", name := "AlphaCorp", avg_price := 100, quantity := 10
    current_price := 105 }

/-- A buy candidate. -/
def stockC : SelectedStock := { code := "C", name := "GammaCorp", price := 10000 }

/-- The confirmed fill for `stockC`. -/
def remoteC : RemotePosition :=
  { code := "C", name := "GammaCorp", avg_price := 10000, quantity := 80
    current_price := 10000 }

/-- Six distinct remote holdings — one more than `cfg0.max_positions`. -/
def remote6 : List RemotePosition :=
  [{ code := "R1", name := "S1", avg_price := 100, quantity := 1,
      current_price := 100 },
   { code := "R2", name := "S2", avg_price := 100, quantity := 1,
      current_price := 100 },
   { code := "R3", name := "S3", avg_price := 100, quantity := 1,
      current_price := 100 },
   { code := "R4", name := "S4", avg_price := 100, quantity := 1,
      current_price := 100 },
   { code := "R5", name := "S5", avg_price := 100, quantity := 1,
      current_price := 100 },
   { code := "R6", name := "S6", avg_price := 100, quantity := 1,
      current_price := 100 }]

/-! ### Ledger lemmas -/

theorem ledger_lookup_nil (c : String) : ledger_lookup [] c = none := rfl

theorem ledger_lookup_cons (e : String × Position) (t : Ledger) (c : String) :
    ledger_lookup (e :: t) c =
      if e.1 = c then some e.2 else ledger_lookup t c := by
  by_cases h : e.1 = c
  · rw [ledger_lookup, List.find?_cons_of_pos _ (by simpa using h), if_pos h]
    rfl
  · rw [ledger_lookup, List.find?_cons_of_neg _ (by simpa using h), if_neg h]
    rfl

theorem ledger_lookup_insert_self (L : Ledger) (c : String) (p : Position) :
    ledger_lookup (ledger_insert L c p) c = some p := by
  induction L with
  | nil => simp [ledger_insert, ledger_lookup_cons]
  | cons e t ih =>
      by_cases h : e.1 = c
      · simp [ledger_insert, h, ledger_lookup_cons]
      · simp only [ledger_insert, if_neg h]
        rw [ledger_lookup_cons, if_neg h]
        exact ih

theorem ledger_lookup_insert_ne (L : Ledger) (c c' : String) (p : Position)
    (h : c' ≠ c) :
    ledger_lookup (ledger_insert L c p) c' = ledger_lookup L c' := by
  have hcc : ¬(c = c') := fun hc => h hc.symm
  induction L with
  | nil => simp [ledger_insert, ledger_lookup_cons, hcc, ledger_lookup_nil]
  | cons e t ih =>
      by_cases he : e.1 = c
      · subst he
        simp [ledger_insert, ledger_lookup_cons, hcc]
      · simp only [ledger_insert, if_neg he]
        rw [ledger_lookup_cons, ledger_lookup_cons]
        by_cases he' : e.1 = c'
        · rw [if_pos he', if_pos he']
        · rw [if_neg he', if_neg he']
          exact ih

theorem ledger_size_insert_le (L : Ledger) (c : String) (p : Position) :
    ledger_size (ledger_insert L c p) ≤ ledger_size L + 1 := by
  induction L with
  | nil => simp [ledger_insert, ledger_size]
  | cons e t ih =>
      by_cases h : e.1 = c
      · simp [ledger_insert, h, ledger_size]
      · simp only [ledger_insert, if_neg h, ledger_size, List.length_cons]
        simp only [ledger_size] at ih
        omega

theorem sync_foldl_lookup_of_not_mem (remote : List RemotePosition) :
    ∀ (acc : Ledger) (c : String), c ∉ remote.map RemotePosition.code →
    ledger_lookup
      (remote.foldl (fun a r => ledger_insert a r.code (adopt_remote r)) acc)
      c = ledger_lookup acc c := by
  induction remote with
  | nil => intro acc c _; rfl
  | cons r rest ih =>
      intro acc c h
      simp only [List.map_cons, List.mem_cons] at h
      push_neg at h
      simp only [List.foldl_cons]
      rw [ih _ c h.2, ledger_lookup_insert_ne _ _ _ _ h.1]

theorem sync_foldl_lookup_mem (remote : List RemotePosition) :
    ∀ (acc : Ledger), (remote.map RemotePosition.code).Nodup →
    ∀ r ∈ remote,
    ledger_lookup
      (remote.foldl (fun a x => ledger_insert a x.code (adopt_remote x)) acc)
      r.code = some (adopt_remote r) := by
  induction remote with
  | nil => intro acc _ r hr; cases hr
  | cons r0 rest ih =>
      intro acc hnd r hr
      simp only [List.map_cons, List.nodup_cons] at hnd
      rcases List.mem_cons.mp hr with h | h
      · subst h
        simp only [List.foldl_cons]
        rw [sync_foldl_lookup_of_not_mem rest _ r.code hnd.1]
        exact ledger_lookup_insert_self acc r.code (adopt_remote r)
      · simp only [List.foldl_cons]
        exact ih _ hnd.2 r h

theorem update_highest_entry (pos : Position) (c : ℚ) :
    (update_highest pos c).entry_price = pos.entry_price := by
  unfold update_highest
  split <;> rfl

theorem update_highest_mono (pos : Position) (c : ℚ) :
    pos.highest_price ≤ (update_highest pos c).highest_price := by
  unfold update_highest
  by_cases h : pos.highest_price < c
  · rw [if_pos h]; exact le_of_lt h
  · rw [if_neg h]

/-! ### Claim theorems -/

/-- C5: for every entry price > 0, current price, highest price, optional
moving-average value and optional time, if
pnlPct = (current − entry)/entry × 100 satisfies pnlPct ≤ −stopLossPct,
then `should_close_position` returns should_close = true with the
stop-loss reason and pnl_percent = pnlPct, regardless of the take-profit,
trailing-stop, and end-of-day conditions. -/
theorem claim_C5_stop_loss_first (cfg : RiskConfig)
    (entry_price current_price highest_price : ℚ) (ma_value : Option ℚ)
    (current_time : Option ℕ) (hentry : 0 < entry_price)
    (hsl : (current_price - entry_price) / entry_price * 100 ≤
      -cfg.stop_loss_percent) :
    should_close_position cfg entry_price current_price highest_price
        ma_value current_time =
      ⟨true, some (CloseReason.stop_loss StopLossReason.loss_limit_exceeded),
        (current_price - entry_price) / entry_price * 100⟩ := by
  simp [should_close_position, check_stop_loss, hsl]

/-- Witness for C5: entry 100, current 90 (pnl −10% ≤ −2.5%), in a state
where the end-of-day rule would also fire if reached. -/
theorem claim_C5_stop_loss_first_witness :
    should_close_position cfg0 100 90 110 none (some 930) =
      ⟨true, some (CloseReason.stop_loss StopLossReason.loss_limit_exceeded),
        (90 - 100) / 100 * 100⟩ :=
  claim_C5_stop_loss_first cfg0 100 90 110 none (some 930) (by norm_num)
    (by norm_num [cfg0])

/-- C6: for every stock price and account balance (risk percent 2, the
value `execute_trade` passes), `calculate_position_size` returns a
quantity ≥ 0, an amount equal to quantity × price that never exceeds
max_position_size, and quantity = amount = 0 whenever the balance or the
price is ≤ 0. -/
theorem claim_C6_position_size_bounds (cfg : RiskConfig)
    (stock_price account_balance : ℚ)
    (hsl : 0 < cfg.stop_loss_percent) (hmax : 0 ≤ cfg.max_position_size) :
    0 ≤ (calculate_position_size cfg stock_price account_balance 2).quantity ∧
    (calculate_position_size cfg stock_price account_balance 2).amount =
      ((calculate_position_size cfg stock_price account_balance 2).quantity :
        ℚ) * stock_price ∧
    (calculate_position_size cfg stock_price account_balance 2).amount ≤
      cfg.max_position_size ∧
    (account_balance ≤ 0 ∨ stock_price ≤ 0 →
      (calculate_position_size cfg stock_price account_balance 2).quantity =
        0 ∧
      (calculate_position_size cfg stock_price account_balance 2).amount =
        0) := by
  by_cases h : account_balance ≤ 0 ∨ stock_price ≤ 0
  · simp [calculate_position_size, h, hmax]
  · push_neg at h
    obtain ⟨hb, hp⟩ := h
    have hcond : ¬(account_balance ≤ 0 ∨ stock_price ≤ 0) := by
      push_neg; exact ⟨hb, hp⟩
    have hx : 0 ≤ account_balance * (2 / 100) /
        (stock_price * (cfg.stop_loss_percent / 100)) := by positivity
    have hy : 0 ≤ cfg.max_position_size / stock_price :=
      div_nonneg hmax hp.le
    have hqx : 0 ≤ pyInt (account_balance * (2 / 100) /
        (stock_price * (cfg.stop_loss_percent / 100))) := by
      rw [pyInt, if_pos hx]
      exact Int.le_floor.mpr (by exact_mod_cast hx)
    have hqy : 0 ≤ pyInt (cfg.max_position_size / stock_price) := by
      rw [pyInt, if_pos hy]
      exact Int.le_floor.mpr (by exact_mod_cast hy)
    have hyle : (pyInt (cfg.max_position_size / stock_price) : ℚ) ≤
        cfg.max_position_size / stock_price := by
      rw [pyInt, if_pos hy]
      exact Int.floor_le _
    have h1 : ((min (pyInt (account_balance * (2 / 100) /
        (stock_price * (cfg.stop_loss_percent / 100))))
        (pyInt (cfg.max_position_size / stock_price)) : ℤ) : ℚ) ≤
        (pyInt (cfg.max_position_size / stock_price) : ℚ) := by
      exact_mod_cast min_le_right _ _
    have hamt : ((min (pyInt (account_balance * (2 / 100) /
          (stock_price * (cfg.stop_loss_percent / 100))))
          (pyInt (cfg.max_position_size / stock_price)) : ℤ) : ℚ) *
          stock_price ≤ cfg.max_position_size := by
      calc ((min (pyInt (account_balance * (2 / 100) /
            (stock_price * (cfg.stop_loss_percent / 100))))
            (pyInt (cfg.max_position_size / stock_price)) : ℤ) : ℚ) *
            stock_price
          ≤ (pyInt (cfg.max_position_size / stock_price) : ℚ) *
              stock_price := mul_le_mul_of_nonneg_right h1 hp.le
        _ ≤ cfg.max_position_size / stock_price * stock_price :=
            mul_le_mul_of_nonneg_right hyle hp.le
        _ = cfg.max_position_size := div_mul_cancel₀ _ hp.ne'
    refine ⟨?_, ?_, ?_, fun hc => absurd hc hcond⟩
    · simp only [calculate_position_size, if_neg hcond]
      exact le_min hqx hqy
    · simp only [calculate_position_size, if_neg hcond]
    · simp only [calculate_position_size, if_neg hcond]
      exact hamt

/-- Witness for C6: the worked example of risk_control.py (price 10000,
balance 10,000,000). -/
theorem claim_C6_position_size_bounds_witness :
    0 ≤ (calculate_position_size cfg0 10000 10000000 2).quantity ∧
    (calculate_position_size cfg0 10000 10000000 2).amount =
      ((calculate_position_size cfg0 10000 10000000 2).quantity : ℚ) *
        10000 ∧
    (calculate_position_size cfg0 10000 10000000 2).amount ≤
      cfg0.max_position_size ∧
    ((10000000 : ℚ) ≤ 0 ∨ (10000 : ℚ) ≤ 0 →
      (calculate_position_size cfg0 10000 10000000 2).quantity = 0 ∧
      (calculate_position_size cfg0 10000 10000000 2).amount = 0) :=
  claim_C6_position_size_bounds cfg0 10000 10000000 (by norm_num [cfg0])
    (by norm_num [cfg0])

/-- C7: with the trailing stop enabled and highest > 0,
`calculate_trailing_stop` reports stop price
highest × (1 − trailingStopPct/100) and fires exactly when
current ≤ stop price and current > entry. -/
theorem claim_C7_trailing_stop (cfg : RiskConfig)
    (entry_price highest_price current_price : ℚ)
    (htr : cfg.trailing_stop = true) (hh : 0 < highest_price) :
    (calculate_trailing_stop cfg entry_price highest_price
        current_price).trailing_stop_price =
      some (highest_price * (1 - cfg.trailing_stop_percent / 100)) ∧
    ((calculate_trailing_stop cfg entry_price highest_price
        current_price).should_stop = true ↔
      (current_price ≤
          highest_price * (1 - cfg.trailing_stop_percent / 100) ∧
        entry_price < current_price)) := by
  have key : (current_price - highest_price) / highest_price * 100 ≤
      -cfg.trailing_stop_percent ↔
      current_price ≤
        highest_price * (1 - cfg.trailing_stop_percent / 100) := by
    rw [div_mul_eq_mul_div, div_le_iff₀ hh]
    rw [show highest_price * (1 - cfg.trailing_stop_percent / 100) =
      (highest_price * 100 - highest_price * cfg.trailing_stop_percent) /
        100 from by ring]
    rw [le_div_iff₀ (by norm_num : (0:ℚ) < 100)]
    constructor <;> intro h <;> nlinarith
  constructor
  · simp [calculate_trailing_stop, htr]
  · have hstop : (calculate_trailing_stop cfg entry_price highest_price
        current_price).should_stop =
        decide ((current_price - highest_price) / highest_price * 100 ≤
          -cfg.trailing_stop_percent ∧ entry_price < current_price) := by
      simp [calculate_trailing_stop, htr]
    rw [hstop, decide_eq_true_eq]
    exact and_congr key Iff.rfl

/-- Witness for C7: the spec scenario entry=100, highest=110,
current=107.9, trailingStopPct=1.5, which fires the trailing stop. -/
theorem claim_C7_trailing_stop_witness :
    ((calculate_trailing_stop cfg0 100 110
        (1079/10)).trailing_stop_price =
      some (110 * (1 - cfg0.trailing_stop_percent / 100)) ∧
    ((calculate_trailing_stop cfg0 100 110 (1079/10)).should_stop = true ↔
      ((1079/10 : ℚ) ≤ 110 * (1 - cfg0.trailing_stop_percent / 100) ∧
        (100 : ℚ) < 1079/10))) ∧
    (calculate_trailing_stop cfg0 100 110 (1079/10)).should_stop = true :=
  ⟨claim_C7_trailing_stop cfg0 100 110 (1079/10) (by norm_num [cfg0])
      (by norm_num),
    by norm_num [calculate_trailing_stop, cfg0]⟩

/-- C8: `check_daily_loss_limit` reports limit_reached exactly when the
baseline balance is positive and (dailyPnl/baseline) × 100 ≤
dailyLossLimitPct; a baseline ≤ 0 never reports a breach. -/
theorem claim_C8_daily_loss_limit (cfg : RiskConfig)
    (daily_pnl account_balance : ℚ) :
    ((check_daily_loss_limit cfg daily_pnl account_balance).limit_reached =
        true ↔
      (0 < account_balance ∧
        daily_pnl / account_balance * 100 ≤ cfg.daily_loss_limit)) ∧
    (account_balance ≤ 0 →
      (check_daily_loss_limit cfg daily_pnl account_balance).limit_reached =
        false) := by
  by_cases h : account_balance ≤ 0
  · simp [check_daily_loss_limit, h, not_lt.mpr h]
  · have h' : 0 < account_balance := not_le.mp h
    simp [check_daily_loss_limit, h, h']

/-- Witness for C8: the spec scenario dailyPnl = −600000, baseline =
10,000,000, limit −5%: the −6% loss trips the limit. -/
theorem claim_C8_daily_loss_limit_witness :
    (((check_daily_loss_limit cfg0 (-600000) 10000000).limit_reached =
        true ↔
      ((0 : ℚ) < 10000000 ∧
        (-600000 : ℚ) / 10000000 * 100 ≤ cfg0.daily_loss_limit)) ∧
    ((10000000 : ℚ) ≤ 0 →
      (check_daily_loss_limit cfg0 (-600000) 10000000).limit_reached =
        false)) ∧
    (check_daily_loss_limit cfg0 (-600000) 10000000).limit_reached = true :=
  ⟨claim_C8_daily_loss_limit cfg0 (-600000) 10000000,
    by norm_num [check_daily_loss_limit, cfg0]⟩

/-- C9: a remote balance report of exactly 0 leaves the locally held
balance unchanged at its prior non-zero value; a positive report
replaces it. Both the sync-time and the hourly refresh use this rule. -/
theorem claim_C9_zero_balance_retained (prior a : ℚ) (hprior : prior ≠ 0) :
    update_account_balance prior (some 0) = prior ∧
    (0 < a → update_account_balance prior (some a) = a) := by
  constructor
  · simp [update_account_balance]
  · intro h
    simp [update_account_balance, h]

/-- Witness for C9: prior balance 5,000,000 survives a zero report and is
replaced by a 7,000,000 report. -/
theorem claim_C9_zero_balance_retained_witness :
    update_account_balance 5000000 (some 0) = 5000000 ∧
    ((0 : ℚ) < 7000000 →
      update_account_balance 5000000 (some 7000000) = 7000000) :=
  claim_C9_zero_balance_retained 5000000 7000000 (by norm_num)

/-- C10: every buy or sell order body carries ORD_DVSN = "01" (market
order) whether or not a price is supplied, and supplying a price changes
no body field other than ORD_UNPR. -/
theorem claim_C10_order_division_always_market
    (cano acnt_prdt_cd stock_code : String) (quantity : ℕ)
    (price : Option ℚ) :
    (place_buy_order_body cano acnt_prdt_cd stock_code quantity
        price).ord_dvsn = "01" ∧
    (place_sell_order_body cano acnt_prdt_cd stock_code quantity
        price).ord_dvsn = "01" ∧
    ∀ p : ℚ,
      ((place_buy_order_body cano acnt_prdt_cd stock_code quantity
          (some p)).cano =
        (place_buy_order_body cano acnt_prdt_cd stock_code quantity
          none).cano ∧
      (place_buy_order_body cano acnt_prdt_cd stock_code quantity
          (some p)).acnt_prdt_cd =
        (place_buy_order_body cano acnt_prdt_cd stock_code quantity
          none).acnt_prdt_cd ∧
      (place_buy_order_body cano acnt_prdt_cd stock_code quantity
          (some p)).pdno =
        (place_buy_order_body cano acnt_prdt_cd stock_code quantity
          none).pdno ∧
      (place_buy_order_body cano acnt_prdt_cd stock_code quantity
          (some p)).ord_dvsn =
        (place_buy_order_body cano acnt_prdt_cd stock_code quantity
          none).ord_dvsn ∧
      (place_buy_order_body cano acnt_prdt_cd stock_code quantity
          (some p)).ord_qty =
        (place_buy_order_body cano acnt_prdt_cd stock_code quantity
          none).ord_qty) ∧
      ((place_sell_order_body cano acnt_prdt_cd stock_code quantity
          (some p)).cano =
        (place_sell_order_body cano acnt_prdt_cd stock_code quantity
          none).cano ∧
      (place_sell_order_body cano acnt_prdt_cd stock_code quantity
          (some p)).acnt_prdt_cd =
        (place_sell_order_body cano acnt_prdt_cd stock_code quantity
          none).acnt_prdt_cd ∧
      (place_sell_order_body cano acnt_prdt_cd stock_code quantity
          (some p)).pdno =
        (place_sell_order_body cano acnt_prdt_cd stock_code quantity
          none).pdno ∧
      (place_sell_order_body cano acnt_prdt_cd stock_code quantity
          (some p)).ord_dvsn =
        (place_sell_order_body cano acnt_prdt_cd stock_code quantity
          none).ord_dvsn ∧
      (place_sell_order_body cano acnt_prdt_cd stock_code quantity
          (some p)).ord_qty =
        (place_sell_order_body cano acnt_prdt_cd stock_code quantity
          none).ord_qty) := by
  refine ⟨?_, ?_, ?_⟩
  · simp [place_buy_order_body]
  · simp [place_sell_order_body]
  · intro p
    constructor
    · simp [place_buy_order_body]
    · simp [place_sell_order_body]

/-- C1 counterexample: at a concrete state (entry 100, current price 90,
stop-loss signal) a sell order whose submission merely returned success
— with no remote fill confirmation modelled anywhere on the sell path —
does remove the position, in `monitor_positions` and in
`close_all_positions` alike; the claim says this never happens. -/
theorem claim_C1_counterexample :
    (monitor_position_step cfg0 posA (some 90) true 600).1 = none ∧
    (close_all_position_step posA (some 90) true).1 = none := by
  constructor
  · norm_num [monitor_position_step, update_highest, should_close_position,
      check_stop_loss, cfg0, posA]
  · norm_num [close_all_position_step]

/-- C1 amended: a position is removed exactly when the sell submission
returns success (and, in `monitor_positions`, a close signal fired); no
exit-fill confirmation is queried — the confirmation poll exists only on
the buy path. A failed submission always keeps the position. -/
theorem claim_C1_amended (cfg : RiskConfig) (pos : Position)
    (current_price : ℚ) (now : ℕ) (price_info : Option ℚ) :
    ((monitor_position_step cfg pos (some current_price) true now).1 =
        none ↔
      (should_close_position cfg pos.entry_price current_price
        (update_highest pos current_price).highest_price none
        (some now)).should_close = true) ∧
    (monitor_position_step cfg pos (some current_price) false now).1 ≠
      none ∧
    (close_all_position_step pos price_info true).1 = none ∧
    (close_all_position_step pos price_info false).1 = some pos := by
  refine ⟨?_, ?_, by simp [close_all_position_step],
    by simp [close_all_position_step]⟩
  · cases h : (should_close_position cfg pos.entry_price current_price
        (update_highest pos current_price).highest_price none
        (some now)).should_close <;>
      simp [monitor_position_step, update_highest_entry, h]
  · cases h : (should_close_position cfg pos.entry_price current_price
        (update_highest pos current_price).highest_price none
        (some now)).should_close <;>
      simp [monitor_position_step, update_highest_entry, h]

/-- Witness for C1 amended, instantiated at the stop-loss state of the
counterexample. -/
theorem claim_C1_amended_witness :
    ((monitor_position_step cfg0 posA (some 90) true 600).1 = none ↔
      (should_close_position cfg0 posA.entry_price 90
        (update_highest posA 90).highest_price none
        (some 600)).should_close = true) ∧
    (monitor_position_step cfg0 posA (some 90) false 600).1 ≠ none ∧
    (close_all_position_step posA (some 90) true).1 = none ∧
    (close_all_position_step posA (some 90) false).1 = some posA :=
  claim_C1_amended cfg0 posA 90 600 (some 90)

/-- C2 counterexample: a successful sync that finds no remote holdings
(`api_positions` empty) returns early and leaves the local ledger as it
was, so the local position `"A"` — absent from the remote set — is not
removed; the claim requires its removal. -/
theorem claim_C2_counterexample :
    ("A" ∉ ([] : List RemotePosition).map RemotePosition.code) ∧
    ledger_lookup (sync_positions_with_account demoLedger []) "A" =
      some posA := by
  constructor
  · simp
  · simp [sync_positions_with_account, demoLedger, ledger_lookup_cons]

/-- C2 amended: when the remote result is non-empty (and codes are
distinct), every remote position — in particular every one not present
locally — ends up in the ledger with order reference "SYNCED" and
highestPrice equal to its current remote price, and every code absent
from the remote result is gone; an empty remote result leaves the ledger
unchanged instead. -/
theorem claim_C2_amended (L : Ledger) (remote : List RemotePosition)
    (hne : remote ≠ [])
    (hnd : (remote.map RemotePosition.code).Nodup) :
    (∀ r ∈ remote,
      ledger_lookup (sync_positions_with_account L remote) r.code =
        some (adopt_remote r) ∧
      (adopt_remote r).order_no = "SYNCED" ∧
      (adopt_remote r).highest_price = r.current_price) ∧
    (∀ c : String, c ∉ remote.map RemotePosition.code →
      ledger_lookup (sync_positions_with_account L remote) c = none) := by
  have hempty : remote.isEmpty = false := by
    cases remote with
    | nil => exact absurd rfl hne
    | cons a t => rfl
  constructor
  · intro r hr
    refine ⟨?_, rfl, rfl⟩
    simp only [sync_positions_with_account, hempty, Bool.false_eq_true,
      if_false]
    exact sync_foldl_lookup_mem remote [] hnd r hr
  · intro c hc
    simp only [sync_positions_with_account, hempty, Bool.false_eq_true,
      if_false]
    rw [sync_foldl_lookup_of_not_mem remote [] c hc]
    rfl

/-- Witness for C2 amended: syncing `demoLedger` against the one-element
remote set `[remoteB]` adopts `"B"` and drops `"A"`. -/
theorem claim_C2_amended_witness :
    (∀ r ∈ [remoteB],
      ledger_lookup (sync_positions_with_account demoLedger [remoteB])
          r.code = some (adopt_remote r) ∧
      (adopt_remote r).order_no = "SYNCED" ∧
      (adopt_remote r).highest_price = r.current_price) ∧
    (∀ c : String, c ∉ [remoteB].map RemotePosition.code →
      ledger_lookup (sync_positions_with_account demoLedger [remoteB]) c =
        none) :=
  claim_C2_amended demoLedger [remoteB] (by simp) (by simp)

/-- C3 counterexample: the reconciliation write is not capped — syncing
an empty local ledger against six remote holdings leaves six positions
in the ledger, exceeding maxPositions = 5. -/
theorem claim_C3_counterexample :
    cfg0.max_positions <
      ledger_size (sync_positions_with_account ([] : Ledger) remote6) := by
  simp [sync_positions_with_account, remote6, ledger_insert,
    adopt_remote, ledger_size, cfg0]

/-- C3 amended: the buy-confirmation insertion (guarded by
`check_max_positions`) and removal preserve `len(ledger) ≤ maxPositions`,
but reconciliation adoption rebuilds the ledger from the full remote set
and can exceed the bound. -/
theorem claim_C3_amended (cfg : RiskConfig) (L : Ledger)
    (stock : SelectedStock) (account_balance : ℚ) (buy_accepted : Bool)
    (fill : Option RemotePosition) (order_no : String) (c : String)
    (hL : ledger_size L ≤ cfg.max_positions) :
    ledger_size (execute_trade_ledger cfg L stock account_balance
        buy_accepted fill order_no) ≤ cfg.max_positions ∧
    ledger_size (ledger_erase L c) ≤ cfg.max_positions := by
  constructor
  · by_cases h1 : check_max_positions cfg (ledger_size L) = true
    · have hlt : ledger_size L < cfg.max_positions := by
        simpa [check_max_positions] using h1
      unfold execute_trade_ledger
      rw [if_neg (by simp [h1])]
      split_ifs with h2 h3 h4
      · exact hL
      · exact hL
      · cases fill with
        | none => exact hL
        | some f =>
            have hins := ledger_size_insert_le L stock.code
              { name := stock.name
                entry_price := f.avg_price
                quantity := f.quantity
                highest_price := f.current_price
                order_no := order_no }
            exact le_trans hins hlt
      · exact hL
    · unfold execute_trade_ledger
      rw [if_pos (by simp [h1])]
      exact hL
  · have herase : ledger_size (ledger_erase L c) ≤ ledger_size L := by
      simpa [ledger_erase, ledger_size] using
        List.length_filter_le (fun e => decide (e.1 ≠ c)) L
    omega

/-- Witness for C3 amended: a buy of `stockC` into the one-position
`demoLedger` and a removal both stay within maxPositions = 5. -/
theorem claim_C3_amended_witness :
    ledger_size (execute_trade_ledger cfg0 demoLedger stockC 10000000 true
        (some remoteC) "0001") ≤ cfg0.max_positions ∧
    ledger_size (ledger_erase demoLedger "A") ≤ cfg0.max_positions :=
  claim_C3_amended cfg0 demoLedger stockC 10000000 true (some remoteC)
    "0001" "A" (by norm_num [demoLedger, ledger_size, cfg0])

/-- C4 counterexample: position `"A"` is held locally with highestPrice
110 and still held remotely; a periodic sync that reports its current
remote price as 105 rewrites the ledger entry with highestPrice 105 —
an operation on a still-held position that lowers highestPrice. -/
theorem claim_C4_counterexample :
    (ledger_lookup demoLedger "A").map Position.highest_price =
      some 110 ∧
    (ledger_lookup (sync_positions_with_account demoLedger [remoteAlow])
        "A").map Position.highest_price = some 105 ∧
    (105 : ℚ) < 110 := by
  refine ⟨?_, ?_, by norm_num⟩
  · simp [demoLedger, ledger_lookup_cons, posA]
  · simp [sync_positions_with_account, remoteAlow, ledger_insert,
      adopt_remote, ledger_lookup_cons]

/-- C4 amended: the monitoring step never lowers the highestPrice of a
position it keeps; reconciliation, however, re-creates every adopted
position with highestPrice reset to the current remote price, which may
be below the previously recorded highest. -/
theorem claim_C4_amended (cfg : RiskConfig) (pos : Position)
    (price_info : Option ℚ) (sell_accepted : Bool) (now : ℕ)
    (p' : Position)
    (hkeep : (monitor_position_step cfg pos price_info sell_accepted
        now).1 = some p') :
    pos.highest_price ≤ p'.highest_price ∧
    ∀ r : RemotePosition,
      (adopt_remote r).highest_price = r.current_price := by
  refine ⟨?_, fun r => rfl⟩
  cases price_info with
  | none =>
      have hp : pos = p' := by simpa [monitor_position_step] using hkeep
      rw [← hp]
  | some current_price =>
      simp only [monitor_position_step] at hkeep
      by_cases h1 : (should_close_position cfg
          (update_highest pos current_price).entry_price current_price
          (update_highest pos current_price).highest_price none
          (some now)).should_close = true
      · rw [if_pos h1] at hkeep
        by_cases h2 : sell_accepted = true
        · rw [if_pos h2] at hkeep
          exact absurd hkeep (by simp)
        · rw [if_neg h2] at hkeep
          have hp : update_highest pos current_price = p' := by
            simpa using hkeep
          rw [← hp]
          exact update_highest_mono pos current_price
      · rw [if_neg h1] at hkeep
        have hp : update_highest pos current_price = p' := by
          simpa using hkeep
        rw [← hp]
        exact update_highest_mono pos current_price

/-- Witness for C4 amended: the step that raises `posA`'s highest price
from 110 to 120 keeps the position and does not lower the field. -/
theorem claim_C4_amended_witness :
    posA.highest_price ≤ posAafter.highest_price ∧
    ∀ r : RemotePosition,
      (adopt_remote r).highest_price = r.current_price :=
  claim_C4_amended cfg0 posA (some 120) false 600 posAafter
    (by norm_num [monitor_position_step, update_highest,
      should_close_position, check_stop_loss, check_take_profit,
      calculate_trailing_stop, check_overnight_eligibility,
      market_close_time, cfg0, posA, posAafter])

end RedArrow
